import Mathlib

/-!
Verification of the changebot-monitor change-detection and notification core.

The TypeScript source is shallowly embedded: JavaScript strings are modelled
as Lean `String` (code points standing in for UTF-16 units; all inputs of
interest are ASCII, where the two coincide), JavaScript numbers as `Int`
(all values handled by the program are integral), `undefined`/absent fields
as `Option`, thrown exceptions as `Except`, and wall-clock reads
(`Date.now()`) as an explicit `now : Int` parameter.
-/

namespace ChangebotMonitor

/-! ## JavaScript string primitives

The embedded code uses `String.prototype.split`, `slice`, `trimEnd`,
`length` and concatenation.  We model them over the character list that
backs Lean's `String`, keeping the exact JavaScript semantics (in
particular `"".split(sep) = [""]` and a split keeps empty segments). -/

/-- Model of JavaScript `String.prototype.split` with a one-character
separator, over character lists: all separator-delimited segments, empty
segments included, and the empty input yields one empty segment. -/
def jsSplitList (sep : Char) : List Char → List (List Char)
  | [] => [[]]
  | c :: cs =>
    match jsSplitList sep cs with
    | [] => [[]]
    | seg :: segs => if c = sep then [] :: seg :: segs else (c :: seg) :: segs

/-- Model of JavaScript `s.split(sep)` for a one-character separator. -/
def jsSplit (sep : Char) (s : String) : List String :=
  (jsSplitList sep s.data).map String.mk

/-- Model of JavaScript `s.length` (UTF-16 units; code points for our ASCII
inputs). -/
def jsLength (s : String) : Nat := s.data.length

/-- Model of JavaScript `s.slice(0, n)`. -/
def jsSlice (s : String) (n : Nat) : String := String.mk (s.data.take n)

/-- Model of JavaScript `s.trimEnd()`: drop trailing whitespace. -/
def jsTrimEnd (s : String) : String :=
  String.mk ((s.data.reverse.dropWhile Char.isWhitespace).reverse)

/-- Model of JavaScript `Array.prototype.join("\n")` on strings. -/
def jsJoinNl : List String → String
  | [] => ""
  | [s] => s
  | s :: rest => s ++ "\n" ++ jsJoinNl rest

/-- Whether a string starts with the given prefix (list-level, so that it
evaluates by `decide`). -/
def strStartsWith (p s : String) : Bool := p.data.isPrefixOf s.data

/-- Model of JavaScript `Math.ceil(a / b)` on integral arguments, `b > 0`. -/
def jsCeilDiv (a b : Int) : Int := -((-a).fdiv b)

/-! ## Data model (src/types.ts) -/

/-- `SnapshotEntry` from types.ts: one fetched observation. -/
structure SnapshotEntry where
  timestamp : String
  content : String
  hash : String
  status : Int
deriving Repr, DecidableEq

/-- `Snapshot` from types.ts: the persisted per-resource state. -/
structure Snapshot where
  url : String
  name : String
  current : SnapshotEntry
  previous : Option SnapshotEntry
  last_check : String
  change_count : Int
  error_count : Int
  enabled : Bool
  selector : Option String
  last_error_notification_time : Option Int
deriving Repr, DecidableEq

/-- `ChangeResult` from types.ts: the ephemeral verdict of one comparison. -/
structure ChangeResult where
  url : String
  name : String
  changed : Bool
  isFirstRun : Bool
  oldHash : Option String
  newHash : Option String
  diff : Option String
  error : Option String
deriving Repr, DecidableEq

/-- HTTP methods accepted by `WebhookChannel.method`. -/
inductive HttpMethod
  | GET | POST | PUT | PATCH
deriving Repr, DecidableEq

/-- `NotificationChannel` from types.ts: tagged union of the two channel
kinds. -/
inductive NotificationChannel
  | ntfy (topic server : String)
  | webhook (url : String) (method : Option HttpMethod)
      (headers : List (String × String)) (body : Option String)
deriving Repr, DecidableEq

/-- `Notifier` from types.ts: a named channel reference or an inline
definition. -/
inductive Notifier
  | named (name : String)
  | inlineDef (channel : NotificationChannel)
deriving Repr, DecidableEq

/-- `Website["priority"]` from types.ts. -/
inductive Priority
  | min | low | default | high | urgent
deriving Repr, DecidableEq

/-- `GlobalSettings` from types.ts. -/
structure GlobalSettings where
  timeout : Int
  retries : Nat
  large_content_threshold : Int
  error_notification_threshold : Int
  error_notification_cooldown_ms : Int
  default_channel : Option String
deriving Repr, DecidableEq

/-- `Website` from types.ts. -/
structure Website where
  name : String
  url : String
  selector : Option String
  enabled : Bool
  priority : Priority
  tags : List String
  notifyOnFirstRun : Option Bool
  notifiers : Option (List Notifier)
deriving Repr, DecidableEq

/-- `Config` from types.ts; the named-channel registry (a JavaScript record)
is modelled as an association list with first-match lookup. -/
structure Config where
  channels : Option (List (String × NotificationChannel))
  settings : GlobalSettings
  websites : List Website
deriving Repr, DecidableEq

/-! ## Error-notification throttling (src/notifier.ts, shouldSendErrorNotification) -/

/-- Return shape of `shouldSendErrorNotification`. -/
structure ThrottleDecision where
  shouldNotify : Bool
  reason : Option String
deriving Repr, DecidableEq

/-- `shouldSendErrorNotification` from notifier.ts: notify iff the error
count has reached the configured threshold and the time since the last
error notification meets or exceeds the configured cooldown.  `Date.now()`
is the explicit `now` argument. -/
def shouldSendErrorNotification (errorCount lastNotificationTime : Int)
    (now : Int) (config : Config) : ThrottleDecision :=
  let threshold := config.settings.error_notification_threshold
  let cooldown := config.settings.error_notification_cooldown_ms
  let timeSinceLastNotification := now - lastNotificationTime
  let shouldNotify :=
    decide (threshold ≤ errorCount) && decide (cooldown ≤ timeSinceLastNotification)
  if shouldNotify then
    { shouldNotify := true, reason := none }
  else if errorCount < threshold then
    { shouldNotify := false
      reason := some ("error count: " ++ toString errorCount ++ "/" ++ toString threshold) }
  else
    { shouldNotify := false
      reason := some ("cooldown: "
        ++ toString (jsCeilDiv (cooldown - timeSinceLastNotification) 60000)
        ++ " minutes remaining") }

/-- Config fixture with the given throttling settings and the source's
default values for the remaining global settings (config.ts). -/
def testConfig (threshold cooldown : Int) : Config :=
  { channels := none
    settings :=
      { timeout := 30000
        retries := 3
        large_content_threshold := 1048576
        error_notification_threshold := threshold
        error_notification_cooldown_ms := cooldown
        default_channel := none }
    websites := [] }

/-! ## Diff truncation (src/utils.ts, truncateText) -/

/-- Options object of `truncateText` (all three fields optional, mirroring
the `undefined` checks in the source). -/
structure TruncateOptions where
  maxLength : Option Nat
  maxLines : Option Nat
  maxTotalSize : Option Nat
deriving Repr, DecidableEq

/-- The `maxLines !== undefined && i >= maxLines` guard. -/
def lineLimitHit : Option Nat → Nat → Bool
  | some ml, i => ml ≤ i
  | none, _ => false

/-- The `maxTotalSize !== undefined && totalSize + lineSize > maxTotalSize`
guard (applied to the already-summed size). -/
def sizeLimitHit : Option Nat → Nat → Bool
  | some mt, sz => mt < sz
  | none, _ => false

/-- The `maxLength !== undefined && processedLine.length > maxLength`
per-line truncation of `truncateText`. -/
def processLine : Option Nat → String → String
  | some ml, line => if ml < jsLength line then jsSlice line ml ++ "..." else line
  | none, line => line

/-- Loop body of `truncateText`: iterates over the split lines carrying the
loop index `i`, the accumulated `result` string and `totalSize`.  `text` and
`totalLines` are the original text and its line count, read by the marker
branches. -/
def truncGo (text : String) (options : TruncateOptions) (totalLines : Nat) :
    List String → Nat → String → Nat → String
  | [], _, result, _ => result
  | line :: rest, i, result, totalSize =>
    if lineLimitHit options.maxLines i then
      result ++ "\n... and " ++ toString (totalLines - i) ++ " more lines"
    else
      let processedLine := processLine options.maxLength line
      let lineSize := jsLength processedLine + (if result = "" then 0 else 1)
      if sizeLimitHit options.maxTotalSize (totalSize + lineSize) then
        result ++ "\n... (truncated, "
          ++ toString ((jsLength text : Int) - (totalSize : Int)) ++ " more characters)"
      else
        truncGo text options totalLines rest (i + 1)
          (result ++ (if result = "" then "" else "\n") ++ processedLine)
          (totalSize + lineSize)

/-- `truncateText` from utils.ts: three-stage truncation (per-line cap, line
count, total size) with explicit marker lines. -/
def truncateText (text : String) (options : TruncateOptions) : String :=
  let lines := jsSplit '\n' text
  truncGo text options lines.length lines 0 "" 0

/-- The `TRUNCATION_LIMITS` constants from utils.ts as passed to
`truncateText` by `generateDiff` (MAX_LINE_LENGTH, MAX_DIFF_LINES,
MAX_DIFF_SIZE). -/
def diffTruncateOptions : TruncateOptions :=
  { maxLength := some 200, maxLines := some 20, maxTotalSize := some 2000 }

/-! ## Differ (src/differ.ts) -/

/-- One change object as returned by the external `diffLines` function of
the npm `diff` package (fields `added`, `removed`, `value`). -/
structure DiffChange where
  added : Bool
  removed : Bool
  value : String
deriving Repr, DecidableEq

/-- One iteration of the change loop in `generateDiff`: an added change
contributes its non-empty lines prefixed `"+ "` (right-trimmed), a removed
change the same with `"- "`, and an unchanged change contributes nothing. -/
def changeLines (change : DiffChange) : List String :=
  if change.added then
    ((jsSplit '\n' change.value).filter (fun l => l ≠ "")).map (fun l => "+ " ++ jsTrimEnd l)
  else if change.removed then
    ((jsSplit '\n' change.value).filter (fun l => l ≠ "")).map (fun l => "- " ++ jsTrimEnd l)
  else []

/-- All lines accumulated by the change loop in `generateDiff`. -/
def diffBodyLines (changes : List DiffChange) : List String :=
  (changes.map changeLines).flatten

/-- `generateDiff` from differ.ts.  The external `diffLines` library
function (called with `newlineIsToken: true, ignoreWhitespace: false`) is
the parameter `dl`; everything after that call is embedded exactly. -/
def generateDiff (dl : String → String → List DiffChange)
    (oldContent newContent : String) : String :=
  truncateText (jsJoinNl (diffBodyLines (dl oldContent newContent))) diffTruncateOptions

/-- The first-run result object returned by `compareContent`. -/
def firstRunResult (url name newHash : String) : ChangeResult :=
  { url := url, name := name, changed := false, isFirstRun := true,
    oldHash := none, newHash := some newHash, diff := some "", error := none }

/-- `compareContent` from differ.ts.  `oldHash` is `oldEntry?.hash`; the
source's `if (!oldHash)` treats both an absent previous entry and an empty
previous hash string (JavaScript falsiness) as first run. -/
def compareContent (dl : String → String → List DiffChange)
    (newEntry : SnapshotEntry) (oldEntry : Option SnapshotEntry)
    (url name : String) : ChangeResult :=
  let newHash := newEntry.hash
  match oldEntry with
  | none => firstRunResult url name newHash
  | some old =>
    if old.hash = "" then firstRunResult url name newHash
    else
      let changed : Bool := newHash != old.hash
      let diff := if changed then generateDiff dl old.content newEntry.content else ""
      { url := url, name := name, changed := changed, isFirstRun := false,
        oldHash := some old.hash, newHash := some newHash, diff := some diff,
        error := none }

/-! ## Channel resolution and dispatch (src/notifier.ts) -/

/-- `getChannelByName` from notifier.ts: `config.channels?.[name]`, throwing
on a missing registry or a missing entry. -/
def getChannelByName (name : String) (config : Config) :
    Except String NotificationChannel :=
  match config.channels.bind (fun m => m.lookup name) with
  | none => .error ("Unknown notification channel: " ++ name)
  | some c => .ok c

/-- The fallback branch of `resolveNotifiers`: use
`config.settings.default_channel` when set (JavaScript falsiness: an empty
default name also means unset), else no channels. -/
def resolveDefaultChannel (config : Config) :
    Except String (List NotificationChannel) :=
  match config.settings.default_channel with
  | none => .ok []
  | some d =>
    if d = "" then .ok []
    else (getChannelByName d config).map (fun c => [c])

/-- One element of the `website.notifiers.map(...)` in `resolveNotifiers`:
a string is looked up in the named registry, an inline definition is used
as-is. -/
def resolveOneNotifier (config : Config) : Notifier → Except String NotificationChannel
  | .named s => getChannelByName s config
  | .inlineDef c => .ok c

/-- Model of JavaScript `Array.prototype.map` over a function that may
throw: the first thrown exception aborts the map and propagates. -/
def jsMapThrow {α β : Type} (f : α → Except String β) :
    List α → Except String (List β)
  | [] => .ok []
  | a :: l =>
    match f a with
    | .error e => .error e
    | .ok b =>
      match jsMapThrow f l with
      | .error e => .error e
      | .ok bs => .ok (b :: bs)

/-- `resolveNotifiers` from notifier.ts. -/
def resolveNotifiers (website : Website) (config : Config) :
    Except String (List NotificationChannel) :=
  match website.notifiers with
  | none => resolveDefaultChannel config
  | some l =>
    if l.isEmpty then resolveDefaultChannel config
    else jsMapThrow (resolveOneNotifier config) l

/-- Whether a settled delivery is a rejection. -/
def isRejected : Except String Unit → Bool
  | .error _ => true
  | .ok _ => false

/-- First rejection reason of a settled-results list (`failures[0]?.reason`;
the branch using it only runs when a failure exists). -/
def firstReason (failures : List (Except String Unit)) : String :=
  match failures with
  | .error e :: _ => e
  | _ => "undefined"

deriving instance DecidableEq for Except

/-- Result of `sendToAllChannels`: which channels had a delivery attempted,
whether the aggregate threw, and whether the partial-failure warning was
logged. -/
structure SendOutcome where
  attempted : List NotificationChannel
  outcome : Except String Unit
  partialWarning : Bool
deriving Repr, DecidableEq

/-- `sendToAllChannels` from notifier.ts: empty channel list is a silent
no-op; otherwise every channel's delivery is attempted
(`Promise.allSettled`), and the aggregate throws only when every channel
failed.  Per-channel delivery (`sendToChannel`, network I/O) is the
parameter `deliver`, already applied to the payload. -/
def sendToAllChannels (deliver : NotificationChannel → Except String Unit)
    (channels : List NotificationChannel) : SendOutcome :=
  if channels.length = 0 then
    { attempted := [], outcome := .ok (), partialWarning := false }
  else
    let results := channels.map deliver
    let failures := results.filter isRejected
    if 0 < failures.length then
      if failures.length = results.length then
        { attempted := channels
          outcome := .error ("All " ++ toString failures.length
            ++ " notification channels failed. First error: " ++ firstReason failures)
          partialWarning := false }
      else
        { attempted := channels, outcome := .ok (), partialWarning := true }
    else
      { attempted := channels, outcome := .ok (), partialWarning := false }

/-- The channel-handling spine of `sendChangeNotification` and
`sendErrorNotification`: resolve the channels, then dispatch.  A resolution
error propagates before any delivery is attempted. -/
def dispatchToChannels (deliver : NotificationChannel → Except String Unit)
    (website : Website) (config : Config) : Except String SendOutcome :=
  (resolveNotifiers website config).map (sendToAllChannels deliver)

/-! ## Fetcher (src/fetcher.ts, fetchWithRetry) -/

/-- `FetchResult` from types.ts. -/
structure FetchResult where
  content : String
  status : Int
  error : Option String
deriving Repr, DecidableEq

/-- Observable trace of one `fetchWithRetry` call: the returned value, how
many attempts ran, and the backoff delays slept between attempts. -/
structure FetchTrace where
  result : FetchResult
  attemptsMade : Nat
  delays : List Nat
deriving Repr, DecidableEq

/-- The backoff computation in `fetchWithRetry`:
`Math.min(INITIAL_RETRY_DELAY_MS * 2 ** (attempt - 1), MAX_RETRY_DELAY_MS)`
with the constants 1000 and 10000 from fetcher.ts. -/
def backoffDelay (attempt : Nat) : Nat :=
  min (1000 * 2 ^ (attempt - 1)) 10000

/-- The `for (let attempt = 1; attempt <= retries; attempt++)` loop of
`fetchWithRetry`.  `attemptOutcome k` is the outside world's answer to the
`k`-th try block (`ok` = fetched content and status, with any selector
applied; `error` = the thrown error's message).  The fuel argument is
`retries + 1 - attempt`; exhausted fuel is the fall-through return after
the loop. -/
def fetchGo (attemptOutcome : Nat → Except String (String × Int))
    (retries : Nat) : Nat → Nat → FetchTrace
  | _, 0 =>
    { result := { content := "", status := 0, error := some "Max retries exceeded" }
      attemptsMade := 0, delays := [] }
  | attempt, fuel + 1 =>
    match attemptOutcome attempt with
    | .ok (content, status) =>
      { result := { content := content, status := status, error := none }
        attemptsMade := 1, delays := [] }
    | .error e =>
      if attempt = retries then
        { result := { content := "", status := 0, error := some e }
          attemptsMade := 1, delays := [] }
      else
        let rest := fetchGo attemptOutcome retries (attempt + 1) fuel
        { result := rest.result
          attemptsMade := rest.attemptsMade + 1
          delays := backoffDelay attempt :: rest.delays }

/-- `fetchWithRetry` from fetcher.ts, as a trace over the per-attempt
outcomes. -/
def fetchWithRetry (attemptOutcome : Nat → Except String (String × Int))
    (retries : Nat) : FetchTrace :=
  fetchGo attemptOutcome retries 1 retries

/-! ## Orchestrator snapshot transitions (src/monitor.ts) -/

/-- The success path of `monitorWebsite` after the fetch: compare against
the prior snapshot and, if changed or first run, build the complete new
snapshot that is passed to `saveSnapshot` (`none` = no write happens).
`now` is the `formatTimestamp()` string taken during the save. -/
def monitorStep (dl : String → String → List DiffChange) (website : Website)
    (existing : Option Snapshot) (newEntry : SnapshotEntry) (now : String) :
    Option Snapshot × ChangeResult :=
  let oldEntry := existing.map (fun s => s.current)
  let result := compareContent dl newEntry oldEntry website.url website.name
  if result.changed || result.isFirstRun then
    (some
      { url := website.url
        name := website.name
        current := newEntry
        previous := existing.map (fun s => s.current)
        last_check := now
        change_count :=
          if result.changed then (existing.map (fun s => s.change_count)).getD 0 + 1
          else (existing.map (fun s => s.change_count)).getD 0
        error_count := (existing.map (fun s => s.error_count)).getD 0
        enabled := website.enabled
        selector := website.selector
        last_error_notification_time := none }, result)
  else (none, result)

/-- The snapshot held in the store for this resource after the success
path ran (`saveSnapshot` is a full-record overwrite keyed by the resource
identity, so a produced record replaces the old one wholesale; otherwise
the old record is untouched). -/
def storeAfterSuccess (dl : String → String → List DiffChange) (website : Website)
    (existing : Option Snapshot) (newEntry : SnapshotEntry) (now : String) :
    Option Snapshot :=
  match (monitorStep dl website existing newEntry now).1 with
  | some snap => some snap
  | none => existing

/-- The catch block of `main` in monitor.ts: on a terminal fetch failure
the existing snapshot is re-saved with `error_count` incremented, or a
fresh placeholder snapshot (empty content and hash, status 0,
`error_count = 1`) is created when none exists. -/
def errorStep (website : Website) (existing : Option Snapshot) (now : String) :
    Snapshot :=
  match existing with
  | some s => { s with error_count := s.error_count + 1 }
  | none =>
    { url := website.url
      name := website.name
      current := { timestamp := now, content := "", hash := "", status := 0 }
      previous := none
      last_check := now
      change_count := 0
      error_count := 1
      enabled := website.enabled
      selector := website.selector
      last_error_notification_time := none }

/-! ## Auxiliary definitions used only in statements and proofs -/

/-- Whether a string ends with the given suffix. -/
def strEndsWith (p s : String) : Bool := p.data.isSuffixOf s.data

/-- Join character segments with a separator character (specification-side
inverse of `jsSplitList`). -/
def joinCharSegs (sep : Char) : List (List Char) → List Char
  | [] => []
  | [s] => s
  | s :: rest@(_ :: _) => s ++ sep :: joinCharSegs sep rest

/-- Newline-prefixed concatenation: what `truncGo` appends for each further
line once the accumulator is non-empty. -/
def nlJoinAll : List String → String
  | [] => ""
  | l :: ls => "\n" ++ l ++ nlJoinAll ls

/-- Total size the `truncGo` accumulator grows by over these lines when the
accumulator is already non-empty (each line costs its length plus one
separator). -/
def sumSize (ls : List String) : Nat :=
  (ls.map (fun l => jsLength l + 1)).sum

/-- Message of an `Except.error`, for stating which error a trace returned. -/
def errOf : Except String (String × Int) → String
  | .error e => e
  | .ok _ => ""

/-- Whether a fetch attempt outcome is a failure. -/
def attemptFailed : Except String (String × Int) → Bool
  | .error _ => true
  | .ok _ => false

/-- Website fixture used by concrete evaluations. -/
def testWebsite : Website :=
  { name := "site", url := "https://example.com", selector := none,
    enabled := true, priority := .default, tags := [],
    notifyOnFirstRun := none, notifiers := none }

/-- Snapshot fixture: a healthy prior snapshot with the given consecutive
error count. -/
def snapWithErrors (ec : Int) : Snapshot :=
  { url := "https://example.com", name := "site",
    current := { timestamp := "t0", content := "old", hash := "h1", status := 200 },
    previous := none, last_check := "t0", change_count := 0, error_count := ec,
    enabled := true, selector := none, last_error_notification_time := none }

/-- Fetched-entry fixture with content differing from `snapWithErrors`. -/
def newEntryFix : SnapshotEntry :=
  { timestamp := "t2", content := "new", hash := "h2", status := 200 }

/-- Fetched-entry fixture with the same content hash as `snapWithErrors`. -/
def sameEntryFix : SnapshotEntry :=
  { timestamp := "t2", content := "old", hash := "h1", status := 200 }

theorem shouldNotify_eq (errorCount lastNotificationTime now : Int) (config : Config) :
    (shouldSendErrorNotification errorCount lastNotificationTime now config).shouldNotify =
      (decide (config.settings.error_notification_threshold ≤ errorCount) &&
       decide (config.settings.error_notification_cooldown_ms ≤ now - lastNotificationTime)) := by
  unfold shouldSendErrorNotification
  by_cases h :
      (decide (config.settings.error_notification_threshold ≤ errorCount) &&
       decide (config.settings.error_notification_cooldown_ms ≤ now - lastNotificationTime)) = true
  · simp only [h, if_true]
  · simp only [Bool.not_eq_true] at h
    simp only [h, Bool.false_eq_true, if_false]
    split <;> rfl

/-- C1: `shouldSendErrorNotification` notifies iff the error count has
reached the threshold and the elapsed time since the last notification is
at least the cooldown; with threshold 3 and cooldown 3600000 ms, an error
count of 2 never notifies, an error count of 3 with last-notification time
0 notifies (at any real clock value `n ≥ 3600000`), and an error count of 5
only 10 minutes after a prior notification does not notify. -/
theorem c1_error_throttle_policy (cfg : Config) (e t now n : Int)
    (hn : 3600000 ≤ n) :
    ((shouldSendErrorNotification e t now cfg).shouldNotify = true ↔
      (cfg.settings.error_notification_threshold ≤ e ∧
       cfg.settings.error_notification_cooldown_ms ≤ now - t)) ∧
    (shouldSendErrorNotification 2 t now (testConfig 3 3600000)).shouldNotify = false ∧
    (shouldSendErrorNotification 3 0 n (testConfig 3 3600000)).shouldNotify = true ∧
    (shouldSendErrorNotification 5 (n - 600000) n (testConfig 3 3600000)).shouldNotify = false := by
  refine ⟨?_, ?_, ?_, ?_⟩
  · rw [shouldNotify_eq]
    simp [Bool.and_eq_true, decide_eq_true_iff]
  · rw [shouldNotify_eq]
    simp [testConfig]
  · rw [shouldNotify_eq]
    simp [testConfig]
    omega
  · rw [shouldNotify_eq]
    simp [testConfig]

/-- Witness for C1 at threshold 3, cooldown 3600000, error count 3,
last-notification time 0, clock 3600000. -/
theorem c1_error_throttle_policy_witness :
    ((shouldSendErrorNotification 3 0 3600000 (testConfig 3 3600000)).shouldNotify = true ↔
      ((testConfig 3 3600000).settings.error_notification_threshold ≤ 3 ∧
       (testConfig 3 3600000).settings.error_notification_cooldown_ms ≤ 3600000 - 0)) ∧
    (shouldSendErrorNotification 2 0 3600000 (testConfig 3 3600000)).shouldNotify = false ∧
    (shouldSendErrorNotification 3 0 3600000 (testConfig 3 3600000)).shouldNotify = true ∧
    (shouldSendErrorNotification 5 (3600000 - 600000) 3600000 (testConfig 3 3600000)).shouldNotify = false :=
  c1_error_throttle_policy (testConfig 3 3600000) 3 0 3600000 3600000 (by norm_num)

/-- C9: with no prior snapshot (no previous entry), the first observation
yields `isFirstRun = true`, `changed = false` and an empty diff. -/
theorem c9_first_observation (dl : String → String → List DiffChange)
    (newEntry : SnapshotEntry) (url name : String) :
    compareContent dl newEntry none url name = firstRunResult url name newEntry.hash ∧
    (compareContent dl newEntry none url name).isFirstRun = true ∧
    (compareContent dl newEntry none url name).changed = false ∧
    (compareContent dl newEntry none url name).diff = some "" :=
  ⟨rfl, rfl, rfl, rfl⟩

/-- C10: a previous entry whose hash is the empty string (as the error-path
placeholder snapshot produces) is classified as a first run — `isFirstRun =
true`, `changed = false`, empty diff — even though a previous entry exists;
in particular the entry created by `errorStep` with no prior snapshot has
an empty hash, so the first successful fetch after an initial failure is
reported as first-run rather than as a change. -/
theorem c10_empty_hash_is_first_run (dl : String → String → List DiffChange)
    (newEntry old : SnapshotEntry) (url name : String)
    (website : Website) (ts : String) (h : old.hash = "") :
    compareContent dl newEntry (some old) url name = firstRunResult url name newEntry.hash ∧
    (errorStep website none ts).current.hash = "" ∧
    compareContent dl newEntry (some ((errorStep website none ts).current)) url name =
      firstRunResult url name newEntry.hash := by
  refine ⟨?_, rfl, rfl⟩
  simp [compareContent, h]

/-- Witness for C10 at a concrete empty-hash previous entry. -/
theorem c10_empty_hash_is_first_run_witness :
    compareContent (fun _ _ => [])
        { timestamp := "t2", content := "new", hash := "h2", status := 200 }
        (some { timestamp := "t1", content := "", hash := "", status := 0 })
        "u" "n" = firstRunResult "u" "n" "h2" ∧
    (errorStep testWebsite none "t1").current.hash = "" ∧
    compareContent (fun _ _ => [])
        { timestamp := "t2", content := "new", hash := "h2", status := 200 }
        (some ((errorStep testWebsite none "t1").current)) "u" "n" =
      firstRunResult "u" "n" "h2" :=
  c10_empty_hash_is_first_run (fun _ _ => [])
    { timestamp := "t2", content := "new", hash := "h2", status := 200 }
    { timestamp := "t1", content := "", hash := "", status := 0 }
    "u" "n" testWebsite "t1" rfl

/-- C2 (code bug): the failure path does increment `error_count` by exactly
1 (initialising it to 1 with no prior snapshot), but a subsequent
successful fetch does NOT reset the persisted `error_count` to 0: the
success-path save carries the existing count forward unchanged (here a
changed fetch on a snapshot with `error_count = 2` persists 2, not 0), and
an unchanged successful fetch writes nothing at all. -/
theorem c2_error_count_not_reset_on_success :
    (errorStep testWebsite none "t0").error_count = 1 ∧
    (errorStep testWebsite (some (snapWithErrors 1)) "t1").error_count = 2 ∧
    ((monitorStep (fun _ _ => []) testWebsite (some (snapWithErrors 2)) newEntryFix "t2").1.map
        (fun s => s.error_count)) = some 2 ∧
    (monitorStep (fun _ _ => []) testWebsite (some (snapWithErrors 2)) sameEntryFix "t2").1 = none := by
  refine ⟨rfl, ?_, ?_, ?_⟩ <;> decide

/-- C8 counterexample: an unchanged successful fetch does not replace the
persisted snapshot at all — no record is written, the store keeps the old
record, and in particular `last_check` is not rewritten on that fetch. -/
theorem c8_counterexample :
    (monitorStep (fun _ _ => []) testWebsite (some (snapWithErrors 0)) sameEntryFix "t2").1 = none ∧
    storeAfterSuccess (fun _ _ => []) testWebsite (some (snapWithErrors 0)) sameEntryFix "t2" =
      some (snapWithErrors 0) ∧
    (snapWithErrors 0).last_check ≠ "t2" := by
  refine ⟨?_, ?_, ?_⟩ <;> decide

/-- C8 (amended): when the success path writes at all (change or first
run), it writes a complete fresh record — every field, including
`last_check := now`, comes from the new construction, never from a partial
merge — and that record replaces the stored one wholesale; an unchanged
fetch writes nothing and leaves the stored record untouched; the failure
path rewrites the full record with only `error_count` incremented
(`last_check` carried over); the core never deletes a record. -/
theorem c8_snapshot_writes_are_wholesale (dl : String → String → List DiffChange)
    (website : Website) (existing : Option Snapshot) (newEntry : SnapshotEntry)
    (now : String) :
    (∀ snap, (monitorStep dl website existing newEntry now).1 = some snap →
      snap.url = website.url ∧ snap.name = website.name ∧
      snap.current = newEntry ∧
      snap.previous = existing.map (fun s => s.current) ∧
      snap.last_check = now ∧
      snap.error_count = (existing.map (fun s => s.error_count)).getD 0 ∧
      snap.enabled = website.enabled ∧ snap.selector = website.selector ∧
      snap.last_error_notification_time = none ∧
      storeAfterSuccess dl website existing newEntry now = some snap) ∧
    ((monitorStep dl website existing newEntry now).1 = none →
      (monitorStep dl website existing newEntry now).2.changed = false ∧
      (monitorStep dl website existing newEntry now).2.isFirstRun = false ∧
      storeAfterSuccess dl website existing newEntry now = existing) ∧
    (existing.isSome = true →
      (storeAfterSuccess dl website existing newEntry now).isSome = true) ∧
    (∀ s, existing = some s →
      errorStep website existing now = { s with error_count := s.error_count + 1 }) := by
  refine ⟨?_, ?_, ?_, ?_⟩
  · intro snap hsnap
    unfold monitorStep at hsnap
    unfold storeAfterSuccess monitorStep
    by_cases hc :
        ((compareContent dl newEntry (existing.map (fun s => s.current))
            website.url website.name).changed ||
         (compareContent dl newEntry (existing.map (fun s => s.current))
            website.url website.name).isFirstRun) = true
    · simp only [hc, if_true] at hsnap ⊢
      cases hsnap
      refine ⟨rfl, rfl, rfl, rfl, rfl, rfl, rfl, rfl, rfl, rfl⟩
    · simp only [Bool.not_eq_true] at hc
      simp only [hc, Bool.false_eq_true, if_false] at hsnap
      exact absurd hsnap (by simp)
  · intro hnone
    unfold monitorStep at hnone
    unfold storeAfterSuccess monitorStep
    by_cases hc :
        ((compareContent dl newEntry (existing.map (fun s => s.current))
            website.url website.name).changed ||
         (compareContent dl newEntry (existing.map (fun s => s.current))
            website.url website.name).isFirstRun) = true
    · simp only [hc, if_true] at hnone
      exact absurd hnone (by simp)
    · simp only [Bool.not_eq_true] at hc
      simp only [hc, Bool.false_eq_true, if_false]
      have h1 := hc
      rw [Bool.or_eq_false_iff] at h1
      exact ⟨h1.1, h1.2, by trivial⟩
  · intro hsome
    unfold storeAfterSuccess
    cases hm : (monitorStep dl website existing newEntry now).1 with
    | some snap => simp
    | none => simpa using hsome
  · intro s hs
    subst hs
    rfl

/-- Witness for C8's amended theorem: a changed fetch writes the complete
fresh record and it replaces the stored one. -/
theorem c8_snapshot_writes_are_wholesale_witness :
    ({ url := "https://example.com", name := "site", current := newEntryFix,
       previous := some (snapWithErrors 0).current, last_check := "t2",
       change_count := 1, error_count := 0, enabled := true, selector := none,
       last_error_notification_time := none } : Snapshot).last_check = "t2" ∧
    storeAfterSuccess (fun _ _ => []) testWebsite (some (snapWithErrors 0)) newEntryFix "t2" =
      some { url := "https://example.com", name := "site", current := newEntryFix,
             previous := some (snapWithErrors 0).current, last_check := "t2",
             change_count := 1, error_count := 0, enabled := true, selector := none,
             last_error_notification_time := none } :=
  ⟨((c8_snapshot_writes_are_wholesale (fun _ _ => []) testWebsite
      (some (snapWithErrors 0)) newEntryFix "t2").1 _ (by decide)).2.2.2.2.1,
   ((c8_snapshot_writes_are_wholesale (fun _ _ => []) testWebsite
      (some (snapWithErrors 0)) newEntryFix "t2").1 _ (by decide)).2.2.2.2.2.2.2.2.2⟩

theorem jsMapThrow_error_of_mem {α β : Type} (f : α → Except String β) :
    ∀ (l : List α) (x : α), x ∈ l → (∃ e, f x = .error e) →
      ∃ e, jsMapThrow f l = .error e := by
  intro l
  induction l with
  | nil => intro x h _; cases h
  | cons a l ih =>
    intro x hmem hx
    cases hmem with
    | head =>
      obtain ⟨e, he⟩ := hx
      exact ⟨e, by simp [jsMapThrow, he]⟩
    | tail _ htail =>
      cases hfa : f a with
      | error e => exact ⟨e, by simp [jsMapThrow, hfa]⟩
      | ok c =>
        obtain ⟨e, he⟩ := ih x htail hx
        exact ⟨e, by simp [jsMapThrow, hfa, he]⟩

theorem mapM_resolveOne_error (cfg : Config) (l : List Notifier) (nm : String)
    (hmem : Notifier.named nm ∈ l)
    (hnone : cfg.channels.bind (fun m => m.lookup nm) = none) :
    ∃ e, jsMapThrow (resolveOneNotifier cfg) l = .error e :=
  jsMapThrow_error_of_mem (resolveOneNotifier cfg) l (Notifier.named nm) hmem
    ⟨"Unknown notification channel: " ++ nm,
      by simp [resolveOneNotifier, getChannelByName, hnone]⟩

/-- C5: channel resolution uses the resource's own notifiers when present
(named references looked up in the registry, inline definitions as-is);
otherwise the configured default channel; otherwise the empty list, in
which case dispatch is a silent no-op with no delivery attempts and no
error; and a notifier referencing a name absent from the registry makes
resolution fail with a configuration error, so dispatch fails before any
delivery is attempted (the dispatch result is the resolution error,
independent of the delivery function). -/
theorem c5_channel_resolution (deliver : NotificationChannel → Except String Unit)
    (w : Website) (cfg : Config) (d : String) (l : List Notifier) (nm : String) :
    (w.notifiers = none ∨ w.notifiers = some [] → cfg.settings.default_channel = none →
      resolveNotifiers w cfg = .ok [] ∧
      dispatchToChannels deliver w cfg =
        .ok { attempted := [], outcome := .ok (), partialWarning := false }) ∧
    (w.notifiers = none ∨ w.notifiers = some [] →
      cfg.settings.default_channel = some d → d ≠ "" →
      resolveNotifiers w cfg = (getChannelByName d cfg).map (fun c => [c])) ∧
    (w.notifiers = some l → l ≠ [] →
      resolveNotifiers w cfg = jsMapThrow (resolveOneNotifier cfg) l) ∧
    (w.notifiers = some l → Notifier.named nm ∈ l →
      cfg.channels.bind (fun m => m.lookup nm) = none →
      ∃ e, resolveNotifiers w cfg = .error e ∧
        dispatchToChannels deliver w cfg = .error e) := by
  refine ⟨?_, ?_, ?_, ?_⟩
  · intro hnot hdef
    have hres : resolveNotifiers w cfg = .ok [] := by
      cases hnot with
      | inl h => simp [resolveNotifiers, h, resolveDefaultChannel, hdef]
      | inr h => simp [resolveNotifiers, h, resolveDefaultChannel, hdef]
    refine ⟨hres, ?_⟩
    simp [dispatchToChannels, hres, Except.map, sendToAllChannels]
  · intro hnot hdef hne
    cases hnot with
    | inl h => simp [resolveNotifiers, h, resolveDefaultChannel, hdef, hne]
    | inr h => simp [resolveNotifiers, h, resolveDefaultChannel, hdef, hne]
  · intro hsome hne
    have : l.isEmpty = false := by
      cases l with
      | nil => exact absurd rfl hne
      | cons a l => rfl
    simp [resolveNotifiers, hsome, this]
  · intro hsome hmem hnone
    obtain ⟨e, he⟩ := mapM_resolveOne_error cfg l nm hmem hnone
    have hne : l ≠ [] := by
      intro h
      subst h
      cases hmem
    have hemp : l.isEmpty = false := by
      cases l with
      | nil => exact absurd rfl hne
      | cons a l => rfl
    have hres : resolveNotifiers w cfg = .error e := by
      simp [resolveNotifiers, hsome, hemp, he]
    refine ⟨e, hres, ?_⟩
    simp [dispatchToChannels, hres, Except.map]

/-- Witness for C5: a resource with no notifiers and no default channel
resolves to the empty channel set and dispatch is a no-op, not an error. -/
theorem c5_channel_resolution_witness :
    resolveNotifiers testWebsite (testConfig 3 3600000) = .ok [] ∧
    dispatchToChannels (fun _ => .ok ()) testWebsite (testConfig 3 3600000) =
      .ok { attempted := [], outcome := .ok (), partialWarning := false } :=
  (c5_channel_resolution (fun _ => .ok ()) testWebsite (testConfig 3 3600000)
    "d" [] "nm").1 (Or.inl rfl) rfl

theorem filter_rejected_pos_iff (deliver : NotificationChannel → Except String Unit)
    (channels : List NotificationChannel) :
    0 < ((channels.map deliver).filter isRejected).length ↔
      ∃ c ∈ channels, isRejected (deliver c) = true := by
  rw [List.length_pos_iff_exists_mem]
  constructor
  · rintro ⟨r, hr⟩
    rw [List.mem_filter, List.mem_map] at hr
    obtain ⟨⟨c, hc, rfl⟩, hrej⟩ := hr
    exact ⟨c, hc, hrej⟩
  · rintro ⟨c, hc, hrej⟩
    exact ⟨deliver c, by rw [List.mem_filter, List.mem_map]; exact ⟨⟨c, hc, rfl⟩, hrej⟩⟩

theorem filter_rejected_all_iff (deliver : NotificationChannel → Except String Unit)
    (channels : List NotificationChannel) :
    ((channels.map deliver).filter isRejected).length = (channels.map deliver).length ↔
      ∀ c ∈ channels, isRejected (deliver c) = true := by
  rw [List.filter_length_eq_length]
  constructor
  · intro hall c hc
    exact hall (deliver c) (List.mem_map_of_mem deliver hc)
  · intro hall r hr
    rw [List.mem_map] at hr
    obtain ⟨c, hc, rfl⟩ := hr
    exact hall c hc

/-- C6: for a non-empty resolved channel list, dispatch attempts delivery
to every channel; the aggregate throws iff every delivery failed; when at
least one channel succeeds it completes with `ok`, logging the
partial-failure warning exactly when some other channel failed. -/
theorem c6_partial_failure_tolerance (deliver : NotificationChannel → Except String Unit)
    (channels : List NotificationChannel) (h : channels ≠ []) :
    (sendToAllChannels deliver channels).attempted = channels ∧
    (isRejected (sendToAllChannels deliver channels).outcome = true ↔
      ∀ c ∈ channels, isRejected (deliver c) = true) ∧
    ((∃ c ∈ channels, isRejected (deliver c) = false) →
      (sendToAllChannels deliver channels).outcome = .ok () ∧
      ((sendToAllChannels deliver channels).partialWarning = true ↔
        ∃ c ∈ channels, isRejected (deliver c) = true)) := by
  have hlen0 : ¬ channels.length = 0 := by
    simpa [List.length_eq_zero] using h
  by_cases hall : ∀ c ∈ channels, isRejected (deliver c) = true
  · have hfl := (filter_rejected_all_iff deliver channels).mpr hall
    have hpos : 0 < ((channels.map deliver).filter isRejected).length := by
      rw [filter_rejected_pos_iff]
      obtain ⟨c, hc⟩ := List.exists_mem_of_ne_nil channels h
      exact ⟨c, hc, hall c hc⟩
    have hsend : sendToAllChannels deliver channels =
        { attempted := channels,
          outcome := .error ("All "
            ++ toString ((channels.map deliver).filter isRejected).length
            ++ " notification channels failed. First error: "
            ++ firstReason ((channels.map deliver).filter isRejected)),
          partialWarning := false } := by
      simp only [sendToAllChannels]
      rw [if_neg hlen0, if_pos hpos, if_pos hfl]
    rw [hsend]
    refine ⟨rfl, ?_, ?_⟩
    · simp only [isRejected]
      exact ⟨fun _ => hall, fun _ => trivial⟩
    · rintro ⟨c, hc, hok⟩
      exact absurd (hall c hc) (by simp [hok])
  · have hfl : ¬ ((channels.map deliver).filter isRejected).length =
        (channels.map deliver).length := by
      rw [filter_rejected_all_iff]
      exact hall
    by_cases hpos : 0 < ((channels.map deliver).filter isRejected).length
    · have hsend : sendToAllChannels deliver channels =
          { attempted := channels, outcome := .ok (), partialWarning := true } := by
        simp only [sendToAllChannels]
        rw [if_neg hlen0, if_pos hpos, if_neg hfl]
      rw [hsend]
      refine ⟨rfl, ?_, ?_⟩
      · simp only [isRejected]
        exact ⟨fun hfalse => absurd hfalse (by simp), fun hc => absurd hc hall⟩
      · intro _
        exact ⟨rfl, ⟨fun _ => (filter_rejected_pos_iff deliver channels).mp hpos,
          fun _ => rfl⟩⟩
    · have hsend : sendToAllChannels deliver channels =
          { attempted := channels, outcome := .ok (), partialWarning := false } := by
        simp only [sendToAllChannels]
        rw [if_neg hlen0, if_neg hpos]
      rw [hsend]
      refine ⟨rfl, ?_, ?_⟩
      · simp only [isRejected]
        exact ⟨fun hfalse => absurd hfalse (by simp), fun hc => absurd hc hall⟩
      · intro _
        refine ⟨rfl, ⟨fun hfalse => absurd hfalse (by simp), fun hex => ?_⟩⟩
        exact absurd ((filter_rejected_pos_iff deliver channels).mpr hex) hpos


/-- Witness for C6 with two channels, one failing and one succeeding:
both are attempted, the aggregate succeeds, and the warning is logged. -/
theorem c6_partial_failure_tolerance_witness :
    (sendToAllChannels
        (fun c => match c with
          | .ntfy _ _ => .error "ntfy down"
          | .webhook _ _ _ _ => .ok ())
        [.ntfy "t" "s", .webhook "u" none [] none]).attempted =
      [.ntfy "t" "s", .webhook "u" none [] none] ∧
    (sendToAllChannels
        (fun c => match c with
          | .ntfy _ _ => .error "ntfy down"
          | .webhook _ _ _ _ => .ok ())
        [.ntfy "t" "s", .webhook "u" none [] none]).outcome = .ok () :=
  ⟨(c6_partial_failure_tolerance _ _ (by decide)).1,
   ((c6_partial_failure_tolerance _ _ (by decide)).2.2
     ⟨.webhook "u" none [] none, by decide, by decide⟩).1⟩

theorem fetchGo_attempts_le (oc : Nat → Except String (String × Int)) (retries : Nat) :
    ∀ (fuel attempt : Nat), (fetchGo oc retries attempt fuel).attemptsMade ≤ fuel := by
  intro fuel
  induction fuel with
  | zero => intro attempt; simp [fetchGo]
  | succ n ih =>
    intro attempt
    cases hoc : oc attempt with
    | ok v =>
      simp only [fetchGo, hoc]
      exact Nat.succ_le_succ (Nat.zero_le n)
    | error e =>
      by_cases hr : attempt = retries
      · simp only [fetchGo, hoc, if_pos hr]
        exact Nat.succ_le_succ (Nat.zero_le n)
      · simp only [fetchGo, hoc, if_neg hr]
        exact Nat.succ_le_succ (ih (attempt + 1))

theorem backoff_delays_shift (attempt m : Nat) :
    (List.range (m + 1)).map (fun j => backoffDelay (attempt + j)) =
      backoffDelay attempt :: (List.range m).map (fun j => backoffDelay (attempt + 1 + j)) := by
  rw [List.range_succ_eq_map, List.map_cons, List.map_map]
  simp only [Nat.add_zero]
  refine congrArg _ ?_
  apply List.map_congr_left
  intro j _
  show backoffDelay (attempt + (j + 1)) = backoffDelay (attempt + 1 + j)
  congr 1
  omega

theorem fetchGo_all_fail (oc : Nat → Except String (String × Int)) (retries : Nat) :
    ∀ (fuel attempt : Nat), 1 ≤ fuel → attempt + fuel = retries + 1 →
      (∀ k, attempt ≤ k → k ≤ retries → attemptFailed (oc k) = true) →
      fetchGo oc retries attempt fuel =
        { result := { content := "", status := 0, error := some (errOf (oc retries)) }
          attemptsMade := fuel
          delays := (List.range (fuel - 1)).map (fun j => backoffDelay (attempt + j)) } := by
  intro fuel
  induction fuel with
  | zero => intro attempt h1; exact absurd h1 (by omega)
  | succ n ih =>
    intro attempt _ hsum hfail
    have ha : attempt ≤ retries := by omega
    cases hoc : oc attempt with
    | ok v =>
      have hf := hfail attempt (Nat.le_refl _) ha
      rw [hoc] at hf
      exact absurd hf (by simp [attemptFailed])
    | error e =>
      by_cases hr : attempt = retries
      · have hn : n = 0 := by omega
        subst hn
        subst hr
        simp only [fetchGo, hoc, if_pos rfl]
        simp [errOf]
      · have hn : 1 ≤ n := by omega
        have hih := ih (attempt + 1) hn (by omega)
          (fun k hk1 hk2 => hfail k (by omega) hk2)
        simp only [fetchGo, hoc, if_neg hr]
        rw [hih]
        obtain ⟨m, rfl⟩ : ∃ m, n = m + 1 := ⟨n - 1, by omega⟩
        simp [backoff_delays_shift, Nat.add_sub_cancel]

/-- C7: for a retry budget `r ≥ 1`, `fetchWithRetry` makes at most `r`
attempts in total; when every attempt fails it returns an error
`FetchResult` carrying the last attempt's error (it does not raise), having
made exactly `r` attempts; and the delay slept after failed attempt `k`
(1-indexed, the `k`-th element of the delay trace) is
`min(1000 * 2^(k-1), 10000)`. -/
theorem c7_fetch_retry_policy (oc : Nat → Except String (String × Int))
    (r : Nat) (h : 1 ≤ r) :
    (fetchWithRetry oc r).attemptsMade ≤ r ∧
    ((∀ k, 1 ≤ k → k ≤ r → attemptFailed (oc k) = true) →
      (fetchWithRetry oc r).result =
        { content := "", status := 0, error := some (errOf (oc r)) } ∧
      (fetchWithRetry oc r).attemptsMade = r ∧
      (fetchWithRetry oc r).delays =
        (List.range (r - 1)).map (fun j => min (1000 * 2 ^ ((j + 1) - 1)) 10000)) := by
  constructor
  · exact fetchGo_attempts_le oc r r 1
  · intro hfail
    have hgo := fetchGo_all_fail oc r r 1 h (by omega) (fun k hk1 hk2 => hfail k hk1 hk2)
    unfold fetchWithRetry
    rw [hgo]
    refine ⟨rfl, rfl, ?_⟩
    apply List.map_congr_left
    intro j _
    show backoffDelay (1 + j) = min (1000 * 2 ^ ((j + 1) - 1)) 10000
    unfold backoffDelay
    have h1 : 1 + j - 1 = j := by omega
    have h2 : j + 1 - 1 = j := by omega
    rw [h1, h2]

/-- Witness for C7: three attempts that all time out yield an error result
with the last error, three attempts made, and backoff delays 1000 ms and
2000 ms. -/
theorem c7_fetch_retry_policy_witness :
    (fetchWithRetry (fun _ => .error "connect timeout") 3).attemptsMade ≤ 3 ∧
    (fetchWithRetry (fun _ => .error "connect timeout") 3).result =
      { content := "", status := 0, error := some "connect timeout" } ∧
    (fetchWithRetry (fun _ => .error "connect timeout") 3).attemptsMade = 3 ∧
    (fetchWithRetry (fun _ => .error "connect timeout") 3).delays = [1000, 2000] :=
  ⟨(c7_fetch_retry_policy (fun _ => .error "connect timeout") 3 (by norm_num)).1,
   ((c7_fetch_retry_policy (fun _ => .error "connect timeout") 3 (by norm_num)).2
      (fun k _ _ => rfl)).1,
   ((c7_fetch_retry_policy (fun _ => .error "connect timeout") 3 (by norm_num)).2
      (fun k _ _ => rfl)).2.1,
   by
    rw [((c7_fetch_retry_policy (fun _ => .error "connect timeout") 3 (by norm_num)).2
      (fun k _ _ => rfl)).2.2]
    rfl⟩

theorem strStartsWith_append (p s : String) : strStartsWith p (p ++ s) = true := by
  simp only [strStartsWith, String.data_append, List.isPrefixOf_iff_prefix]
  exact List.prefix_append _ _

theorem diffBodyLines_pm (changes : List DiffChange) :
    ∀ l ∈ diffBodyLines changes,
      strStartsWith "+ " l = true ∨ strStartsWith "- " l = true := by
  intro l hl
  unfold diffBodyLines at hl
  rw [List.mem_flatten] at hl
  obtain ⟨ls, hls, hmem⟩ := hl
  rw [List.mem_map] at hls
  obtain ⟨ch, _, rfl⟩ := hls
  unfold changeLines at hmem
  by_cases ha : ch.added = true
  · rw [if_pos ha, List.mem_map] at hmem
    obtain ⟨x, _, rfl⟩ := hmem
    exact Or.inl (strStartsWith_append "+ " (jsTrimEnd x))
  · rw [if_neg ha] at hmem
    by_cases hr : ch.removed = true
    · rw [if_pos hr, List.mem_map] at hmem
      obtain ⟨x, _, rfl⟩ := hmem
      exact Or.inr (strStartsWith_append "- " (jsTrimEnd x))
    · rw [if_neg hr] at hmem
      cases hmem

/-- C3 (amended): with a previous entry whose stored hash is non-empty,
`changed` is true iff the two content hashes differ (raw content is never
compared); when changed, the diff is the truncation of lines that are all
prefixed `"+ "` or `"- "` — no unchanged context line is ever emitted,
though truncation marker lines may be appended by `truncateText`.  (An
empty previous hash is instead treated as a first run, and large diffs end
in marker lines: see the counterexample.) -/
theorem c3_changed_iff_hash_diff (dl : String → String → List DiffChange)
    (newE old : SnapshotEntry) (url name : String) (h : old.hash ≠ "") :
    ((compareContent dl newE (some old) url name).changed = true ↔
      newE.hash ≠ old.hash) ∧
    ((compareContent dl newE (some old) url name).changed = true →
      (compareContent dl newE (some old) url name).diff =
        some (truncateText (jsJoinNl (diffBodyLines (dl old.content newE.content)))
          diffTruncateOptions)) ∧
    (∀ l ∈ diffBodyLines (dl old.content newE.content),
      strStartsWith "+ " l = true ∨ strStartsWith "- " l = true) := by
  refine ⟨?_, ?_, diffBodyLines_pm _⟩
  · simp [compareContent, h]
  · intro hch
    rw [show (compareContent dl newE (some old) url name).changed = (newE.hash != old.hash)
      from by simp [compareContent, h]] at hch
    rw [bne_iff_ne] at hch
    simp [compareContent, h, hch, generateDiff]

/-- Witness for C3's amended theorem at a concrete changed pair. -/
theorem c3_changed_iff_hash_diff_witness :
    ((compareContent (fun _ _ => []) newEntryFix (some (snapWithErrors 0).current)
        "u" "n").changed = true ↔
      newEntryFix.hash ≠ (snapWithErrors 0).current.hash) ∧
    ((compareContent (fun _ _ => []) newEntryFix (some (snapWithErrors 0).current)
        "u" "n").changed = true →
      (compareContent (fun _ _ => []) newEntryFix (some (snapWithErrors 0).current)
        "u" "n").diff =
        some (truncateText
          (jsJoinNl (diffBodyLines
            ((fun _ _ => ([] : List DiffChange)) (snapWithErrors 0).current.content
              newEntryFix.content)))
          diffTruncateOptions)) :=
  ⟨(c3_changed_iff_hash_diff (fun _ _ => []) newEntryFix (snapWithErrors 0).current
      "u" "n" (by decide)).1,
   (c3_changed_iff_hash_diff (fun _ _ => []) newEntryFix (snapWithErrors 0).current
      "u" "n" (by decide)).2.1⟩

/-- C3 counterexample: (a) a previous entry whose stored hash is the empty
string — as the error path produces — has `changed = false` although the
hashes `""` and `"h2"` differ, so "changed iff the hashes differ" fails for
a present previous entry; (b) a changed comparison whose diff body exceeds
20 lines yields a diff whose last line is a truncation marker, not a
`"+ "`/`"- "`-prefixed line, so "the diff consists only of lines prefixed
'+ ' or '- '" fails as well. -/
theorem c3_counterexample :
    ((compareContent (fun _ _ => [])
        { timestamp := "t2", content := "x", hash := "h2", status := 200 }
        (some { timestamp := "t1", content := "", hash := "", status := 0 })
        "u" "n").changed = false ∧
      ("h2" : String) ≠ "") ∧
    (let dl := fun (_ _ : String) =>
        [ ({ added := false, removed := true, value := "old line\n" } : DiffChange),
          { added := true, removed := false,
            value := "a\na\na\na\na\na\na\na\na\na\na\na\na\na\na\na\na\na\na\na\na\na\na\na\na\n" } ]
     (compareContent dl newEntryFix (some (snapWithErrors 0).current) "u" "n").changed = true ∧
     ((jsSplit '\n'
        ((compareContent dl newEntryFix (some (snapWithErrors 0).current) "u" "n").diff.getD ""))
        |>.all (fun l => strStartsWith "+ " l || strStartsWith "- " l)) = false) := by
  refine ⟨⟨?_, ?_⟩, ?_, ?_⟩ <;> decide

theorem data_nl : ("\n" : String).data = ['\n'] := rfl

theorem jsSplitList_ne_nil (sep : Char) (l : List Char) : jsSplitList sep l ≠ [] := by
  cases l with
  | nil => simp [jsSplitList]
  | cons x xs =>
    simp only [jsSplitList]
    cases jsSplitList sep xs with
    | nil => simp
    | cons seg segs =>
      by_cases hx : x = sep <;> simp [hx]

theorem joinCharSegs_cons_cons (sep x : Char) (seg : List Char)
    (segs : List (List Char)) :
    joinCharSegs sep ((x :: seg) :: segs) = x :: joinCharSegs sep (seg :: segs) := by
  cases segs <;> simp [joinCharSegs]

theorem joinCharSegs_jsSplitList (sep : Char) (l : List Char) :
    joinCharSegs sep (jsSplitList sep l) = l := by
  induction l with
  | nil => simp [jsSplitList, joinCharSegs]
  | cons x xs ih =>
    cases hsp : jsSplitList sep xs with
    | nil => exact absurd hsp (jsSplitList_ne_nil sep xs)
    | cons seg segs =>
      rw [hsp] at ih
      by_cases hx : x = sep
      · simp only [jsSplitList, hsp, if_pos hx]
        subst hx
        rw [show joinCharSegs x ([] :: seg :: segs) =
          [] ++ x :: joinCharSegs x (seg :: segs) from by simp [joinCharSegs]]
        simp [ih]
      · simp only [jsSplitList, hsp, if_neg hx]
        rw [joinCharSegs_cons_cons, ih]

theorem jsJoinNl_map_mk : ∀ (segs : List (List Char)), segs ≠ [] →
    jsJoinNl (segs.map String.mk) = String.mk (joinCharSegs '\n' segs) := by
  intro segs
  induction segs with
  | nil => intro h; exact absurd rfl h
  | cons a segs ih =>
    intro _
    cases segs with
    | nil => simp [jsJoinNl, joinCharSegs]
    | cons b rest =>
      show String.mk a ++ "\n" ++ jsJoinNl (List.map String.mk (b :: rest)) =
        String.mk (joinCharSegs '\n' (a :: b :: rest))
      rw [ih (by simp)]
      apply String.ext
      simp [joinCharSegs, data_nl]

theorem jsJoinNl_jsSplit (s : String) : jsJoinNl (jsSplit '\n' s) = s := by
  unfold jsSplit
  rw [jsJoinNl_map_mk _ (jsSplitList_ne_nil '\n' s.data), joinCharSegs_jsSplitList]

theorem jsJoinNl_cons (l : String) (ls : List String) :
    jsJoinNl (l :: ls) = l ++ nlJoinAll ls := by
  induction ls generalizing l with
  | nil => simp [jsJoinNl, nlJoinAll]
  | cons b rest ih =>
    simp only [jsJoinNl, nlJoinAll]
    rw [ih b]
    apply String.ext
    simp

theorem sumSize_cons (l : String) (ls : List String) :
    sumSize (l :: ls) = jsLength l + 1 + sumSize ls := by
  simp [sumSize]

theorem sumSize_append (a b : List String) :
    sumSize (a ++ b) = sumSize a + sumSize b := by
  simp [sumSize]

theorem sumSize_take_le (n : Nat) (ls : List String) :
    sumSize (ls.take n) ≤ sumSize ls := by
  conv_rhs => rw [← List.take_append_drop n ls]
  rw [sumSize_append]
  exact Nat.le_add_right _ _

theorem jsLength_nlJoinAll (ls : List String) : jsLength (nlJoinAll ls) = sumSize ls := by
  induction ls with
  | nil => rfl
  | cons l rest ih =>
    simp only [nlJoinAll, jsLength, String.data_append, List.length_append, data_nl,
      List.length_cons, List.length_nil] at ih ⊢
    rw [sumSize_cons]
    simp only [jsLength] at *
    omega

theorem jsLength_joinNl_cons (l : String) (ls : List String) :
    jsLength (jsJoinNl (l :: ls)) = jsLength l + sumSize ls := by
  rw [jsJoinNl_cons]
  have h := jsLength_nlJoinAll ls
  simp only [jsLength, String.data_append, List.length_append] at h ⊢
  omega

theorem append_nl_ne_empty (a b : String) : a ++ "\n" ++ b ≠ "" := by
  intro hc
  have hd := congrArg String.data hc
  simp only [String.data_append, data_nl] at hd
  have : ('\n' :: b.data) ≠ [] := by simp
  rcases List.append_eq_nil.mp hd with ⟨h1, h2⟩
  rcases List.append_eq_nil.mp h1 with ⟨_, h3⟩
  cases h3

theorem truncGo_within (text : String) (o : TruncateOptions) (totalLines : Nat) :
    ∀ (rest : List String) (i : Nat) (result : String) (totalSize : Nat),
      result ≠ "" →
      (∀ l ∈ rest, processLine o.maxLength l = l) →
      (∀ k, i ≤ k → k < i + rest.length → lineLimitHit o.maxLines k = false) →
      (∀ sz, sz ≤ totalSize + sumSize rest → sizeLimitHit o.maxTotalSize sz = false) →
      truncGo text o totalLines rest i result totalSize = result ++ nlJoinAll rest := by
  intro rest
  induction rest with
  | nil =>
    intro i result totalSize _ _ _ _
    simp [truncGo, nlJoinAll]
  | cons l rest ih =>
    intro i result totalSize hres hp hL hS
    have hL0 : lineLimitHit o.maxLines i = false :=
      hL i (Nat.le_refl i) (by simp only [List.length_cons]; omega)
    have hp0 : processLine o.maxLength l = l := hp l (List.mem_cons_self l rest)
    have hS0 : sizeLimitHit o.maxTotalSize (totalSize + (jsLength l + 1)) = false := by
      apply hS
      rw [sumSize_cons]
      omega
    simp only [truncGo, hL0, Bool.false_eq_true, if_false, hp0, if_neg hres, hS0]
    rw [ih (i + 1) (result ++ "\n" ++ l) (totalSize + (jsLength l + 1))
      (append_nl_ne_empty _ _)
      (fun x hx => hp x (List.mem_cons_of_mem _ hx))
      (fun k hk1 hk2 => hL k (by omega) (by simp only [List.length_cons]; omega))
      (fun sz hsz => hS sz (by rw [sumSize_cons]; omega))]
    apply String.ext
    simp [nlJoinAll, data_nl]

theorem truncateText_within_id (text : String) (o : TruncateOptions)
    (hp : ∀ l ∈ jsSplit '\n' text, processLine o.maxLength l = l)
    (hLn : ∀ k, k < (jsSplit '\n' text).length → lineLimitHit o.maxLines k = false)
    (hSz : ∀ sz, sz ≤ jsLength text → sizeLimitHit o.maxTotalSize sz = false)
    (h0 : jsSplit '\n' text = [""] ∨
      ∃ l rest, jsSplit '\n' text = l :: rest ∧ l ≠ "") :
    truncateText text o = text := by
  have hjoin := jsJoinNl_jsSplit text
  cases h0 with
  | inl hsp =>
    have htext : text = "" := by
      rw [hsp] at hjoin
      exact hjoin.symm
    subst htext
    have hL0 : lineLimitHit o.maxLines 0 = false := hLn 0 (by rw [hsp]; simp)
    have hp0 : processLine o.maxLength "" = "" :=
      hp "" (by rw [hsp]; exact List.mem_cons_self _ _)
    have hS0 : sizeLimitHit o.maxTotalSize 0 = false := hSz 0 (Nat.zero_le _)
    show truncGo "" o 1 [""] 0 "" 0 = ""
    simp [truncGo, hL0, hp0, hS0, jsLength]
  | inr h =>
    obtain ⟨l, rest, hsp, hl⟩ := h
    rw [hsp] at hjoin
    have hlen : jsLength text = jsLength l + sumSize rest := by
      rw [← hjoin]
      exact jsLength_joinNl_cons l rest
    have hL0 : lineLimitHit o.maxLines 0 = false :=
      hLn 0 (by rw [hsp]; simp only [List.length_cons]; omega)
    have hp0 : processLine o.maxLength l = l :=
      hp l (by rw [hsp]; exact List.mem_cons_self _ _)
    have hS0 : sizeLimitHit o.maxTotalSize (jsLength l) = false := by
      apply hSz
      omega
    simp only [truncateText]
    rw [hsp]
    simp [truncGo, hL0, hp0, hS0]
    rw [truncGo_within text o _ rest 1 l (jsLength l) hl
      (fun x hx => hp x (by rw [hsp]; exact List.mem_cons_of_mem _ hx))
      (fun k hk1 hk2 => hLn k (by rw [hsp]; simp only [List.length_cons]; omega))
      (fun sz hsz => hSz sz (by omega))]
    rw [← jsJoinNl_cons, hjoin]

theorem truncGo_line_marker (text : String) (o : TruncateOptions) (totalLines : Nat)
    (mL : Nat) (hml : o.maxLines = some mL) :
    ∀ (rest : List String) (i : Nat) (result : String) (totalSize : Nat),
      result ≠ "" →
      (∀ l ∈ rest, processLine o.maxLength l = l) →
      i ≤ mL → mL < i + rest.length →
      (∀ sz, sz ≤ totalSize + sumSize (rest.take (mL - i)) →
        sizeLimitHit o.maxTotalSize sz = false) →
      truncGo text o totalLines rest i result totalSize =
        result ++ nlJoinAll (rest.take (mL - i)) ++ "\n... and "
          ++ toString (totalLines - mL) ++ " more lines" := by
  intro rest
  induction rest with
  | nil =>
    intro i result totalSize _ _ hi hlt _
    simp only [List.length_nil] at hlt
    omega
  | cons l rest ih =>
    intro i result totalSize hres hp hi hlt hS
    by_cases hieq : i = mL
    · subst hieq
      have hL0 : lineLimitHit o.maxLines i = true := by
        simp [hml, lineLimitHit]
      simp only [truncGo, hL0, if_true]
      rw [Nat.sub_self]
      simp [nlJoinAll, String.append_assoc]
    · have hlt2 : i < mL := by omega
      have hL0 : lineLimitHit o.maxLines i = false := by
        simp [hml, lineLimitHit]
        omega
      have hp0 : processLine o.maxLength l = l := hp l (List.mem_cons_self l rest)
      have htake : (l :: rest).take (mL - i) = l :: rest.take (mL - i - 1) := by
        rw [show mL - i = (mL - i - 1) + 1 from by omega]
        rfl
      have heq : mL - i - 1 = mL - (i + 1) := by omega
      have hS0 : sizeLimitHit o.maxTotalSize (totalSize + (jsLength l + 1)) = false := by
        apply hS
        rw [htake, sumSize_cons]
        omega
      simp only [truncGo, hL0, Bool.false_eq_true, if_false, hp0, if_neg hres, hS0]
      rw [ih (i + 1) (result ++ "\n" ++ l) (totalSize + (jsLength l + 1))
        (append_nl_ne_empty _ _)
        (fun x hx => hp x (List.mem_cons_of_mem _ hx))
        (by omega) (by simp only [List.length_cons] at hlt ⊢; omega)
        (fun sz hsz => hS sz (by rw [htake, sumSize_cons, heq]; omega))]
      rw [htake, heq]
      apply String.ext
      simp [nlJoinAll, data_nl]

theorem truncateText_line_marker (text : String) (o : TruncateOptions) (mL : Nat)
    (hml : o.maxLines = some mL) (h1 : 1 ≤ mL)
    (hmlt : mL < (jsSplit '\n' text).length)
    (hp : ∀ l ∈ jsSplit '\n' text, processLine o.maxLength l = l)
    (hSz : ∀ sz, sz ≤ jsLength text → sizeLimitHit o.maxTotalSize sz = false)
    (h0 : ∃ l rest, jsSplit '\n' text = l :: rest ∧ l ≠ "") :
    truncateText text o =
      jsJoinNl ((jsSplit '\n' text).take mL) ++ "\n... and "
        ++ toString ((jsSplit '\n' text).length - mL) ++ " more lines" := by
  obtain ⟨l, rest, hsp, hl⟩ := h0
  have hjoin := jsJoinNl_jsSplit text
  rw [hsp] at hjoin
  have hlen : jsLength text = jsLength l + sumSize rest := by
    rw [← hjoin]
    exact jsLength_joinNl_cons l rest
  have hL0 : lineLimitHit o.maxLines 0 = false := by
    simp [hml, lineLimitHit]
    omega
  have hp0 : processLine o.maxLength l = l :=
    hp l (by rw [hsp]; exact List.mem_cons_self _ _)
  have hS0 : sizeLimitHit o.maxTotalSize (jsLength l) = false := by
    apply hSz
    omega
  have htake : (l :: rest).take mL = l :: rest.take (mL - 1) := by
    rw [show mL = (mL - 1) + 1 from by omega]
    rfl
  simp only [truncateText]
  rw [hsp]
  simp [truncGo, hL0, hp0, hS0]
  rw [truncGo_line_marker text o _ mL hml rest 1 l (jsLength l) hl
    (fun x hx => hp x (by rw [hsp]; exact List.mem_cons_of_mem _ hx))
    h1 (by rw [hsp] at hmlt; simp only [List.length_cons] at hmlt; omega)
    (fun sz hsz => hSz sz (by
      have hle := sumSize_take_le (mL - 1) rest
      omega))]
  rw [htake]
  apply String.ext
  simp [jsJoinNl_cons, nlJoinAll, data_nl]

/-- C4 (amended): `truncateText` is deterministic (a pure function of text
and limits) and acts as the identity on texts already within the limits (no
line over the per-line cap, line and size limits never hit, text not
starting with an empty line) — hence it is idempotent on those; but it is
NOT idempotent in general: when the line-count stage trims, the appended
marker line is itself an input line of a re-truncation, which replaces it
(see the counterexample).  The line-count marker states exactly the number
of lines of its input that were omitted (`total lines − maxLines`); the
character marker states original length minus kept size, which can differ
from the actually omitted count — and can even be negative — when per-line
truncation inflated lines before the size stage (see the counterexample). -/
theorem c4_truncation (text : String) (o : TruncateOptions)
    (hp : ∀ l ∈ jsSplit '\n' text, processLine o.maxLength l = l)
    (hSz : ∀ sz, sz ≤ jsLength text → sizeLimitHit o.maxTotalSize sz = false)
    (h0 : jsSplit '\n' text = [""] ∨
      ∃ l rest, jsSplit '\n' text = l :: rest ∧ l ≠ "") :
    ((∀ k, k < (jsSplit '\n' text).length → lineLimitHit o.maxLines k = false) →
      truncateText text o = text ∧
      truncateText (truncateText text o) o = truncateText text o) ∧
    (∀ mL, o.maxLines = some mL → 1 ≤ mL → mL < (jsSplit '\n' text).length →
      truncateText text o =
        jsJoinNl ((jsSplit '\n' text).take mL) ++ "\n... and "
          ++ toString ((jsSplit '\n' text).length - mL) ++ " more lines") := by
  constructor
  · intro hLn
    have hid := truncateText_within_id text o hp hLn hSz h0
    exact ⟨hid, by rw [hid]; exact hid⟩
  · intro mL hml h1 hmlt
    have h0' : ∃ l rest, jsSplit '\n' text = l :: rest ∧ l ≠ "" := by
      cases h0 with
      | inl h =>
        rw [h] at hmlt
        simp only [List.length_cons, List.length_nil] at hmlt
        omega
      | inr h => exact h
    exact truncateText_line_marker text o mL hml h1 hmlt hp hSz h0'

/-- Witness for C4's amended theorem: a two-line text within the limits is
returned unchanged (and re-truncation is a no-op), and a three-line text
with a line limit of 2 keeps two lines and appends a marker counting the
one omitted line. -/
theorem c4_truncation_witness :
    (truncateText "a\nb" diffTruncateOptions = "a\nb" ∧
      truncateText (truncateText "a\nb" diffTruncateOptions) diffTruncateOptions =
        truncateText "a\nb" diffTruncateOptions) ∧
    truncateText "a\nb\nc"
        { maxLength := some 200, maxLines := some 2, maxTotalSize := some 2000 } =
      "a\nb\n... and 1 more lines" :=
  ⟨(c4_truncation "a\nb" diffTruncateOptions (by decide)
      (fun sz hsz => by
        rw [show jsLength "a\nb" = 3 from rfl] at hsz
        simp [sizeLimitHit, diffTruncateOptions]
        omega)
      (Or.inr ⟨"a", ["b"], by decide, by decide⟩)).1
    (by decide),
   by
    rw [(c4_truncation "a\nb\nc"
        { maxLength := some 200, maxLines := some 2, maxTotalSize := some 2000 }
        (by decide)
        (fun sz hsz => by
          rw [show jsLength "a\nb\nc" = 5 from rfl] at hsz
          simp [sizeLimitHit]
          omega)
        (Or.inr ⟨"a", ["b", "c"], by decide, by decide⟩)).2 2 rfl
      (by norm_num) (by decide)]
    rfl⟩

/-- C4 counterexample: (a) re-truncating an already-truncated 25-line diff
with the same limits changes it — the first pass keeps 20 lines and
appends "... and 5 more lines", the second pass truncates that marker line
away and appends "... and 1 more lines" — so truncation is not idempotent;
(b) with a per-line cap of 5, a line limit of 20 and a total-size cap of
80, ten 7-character lines produce a character marker stating "-1 more
characters" although content was omitted (the output differs from the
input), so the marker's count is not the actually omitted amount. -/
theorem c4_counterexample :
    truncateText
        (truncateText
          "a\na\na\na\na\na\na\na\na\na\na\na\na\na\na\na\na\na\na\na\na\na\na\na\na"
          diffTruncateOptions)
        diffTruncateOptions ≠
      truncateText
        "a\na\na\na\na\na\na\na\na\na\na\na\na\na\na\na\na\na\na\na\na\na\na\na\na"
        diffTruncateOptions ∧
    strEndsWith "(truncated, -1 more characters)"
      (truncateText
        "aaaaaaa\naaaaaaa\naaaaaaa\naaaaaaa\naaaaaaa\naaaaaaa\naaaaaaa\naaaaaaa\naaaaaaa\naaaaaaa"
        { maxLength := some 5, maxLines := some 20, maxTotalSize := some 80 }) = true ∧
    truncateText
        "aaaaaaa\naaaaaaa\naaaaaaa\naaaaaaa\naaaaaaa\naaaaaaa\naaaaaaa\naaaaaaa\naaaaaaa\naaaaaaa"
        { maxLength := some 5, maxLines := some 20, maxTotalSize := some 80 } ≠
      "aaaaaaa\naaaaaaa\naaaaaaa\naaaaaaa\naaaaaaa\naaaaaaa\naaaaaaa\naaaaaaa\naaaaaaa\naaaaaaa" := by
  refine ⟨?_, ?_, ?_⟩ <;> decide

end ChangebotMonitor
